import Mathlib

set_option linter.unusedVariables false

namespace Sierra

/-- Modelled from the spec: identifiers (ids.rs is not under the provided sources) are
interned, value-compared handles carrying no behavior. -/
abbrev GenericTypeId := String

/-- Modelled from the spec: value-compared concrete-type identifier. -/
abbrev ConcreteTypeId := String

/-- Modelled from the spec: value-compared generic-libfunc identifier. -/
abbrev GenericLibFuncId := String

/-- Modelled from the spec: value-compared function identifier. -/
abbrev FunctionId := String

/-- Modelled from the spec: GenericArg (program.rs is not under the provided sources) is a
tagged union of a concrete-type reference and a literal value. -/
inductive GenericArg where
  | Type (ty : ConcreteTypeId)
  | Value (v : Int)
deriving DecidableEq

/-- Modelled from the spec: a Function declares parameter and return types, keyed by
FunctionId (program.rs is not under the provided sources). -/
structure Function where
  params : List ConcreteTypeId
  ret_types : List ConcreteTypeId
deriving DecidableEq

/-- Modelled from the spec: SpecializationError (error.rs is not under the provided
sources) with the four variants the spec lists. -/
inductive SpecializationError where
  | UnsupportedId
  | UnsupportedGenericArg
  | WrongNumberOfGenericArgs
  | TypeWasNotDeclared (id : GenericTypeId) (args : List GenericArg)
deriving DecidableEq

/-- Modelled from the spec: ExtensionError wraps a SpecializationError together with the
offending GenericLibFuncId (error.rs is not under the provided sources). -/
inductive ExtensionError where
  | LibFuncSpecialization (libfunc_id : GenericLibFuncId) (error : SpecializationError)
deriving DecidableEq

/-- Modelled from the spec: InputError is raised by simulation when the runtime shape
(variable count, cell count) mismatches the signature (error.rs is not under the provided
sources). -/
inductive InputError where
  | WrongNumberOfArgs
deriving DecidableEq

/-- Modelled from the spec: MemCell, the atomic unit of simulated runtime memory
(mem_cell.rs is not under the provided sources). -/
structure MemCell where
  value : Int
deriving DecidableEq

/-- Mapping from the arguments for generating a concrete type (the generic-id and the
arguments) to the concrete-id that points to it (lib_func.rs, line 10); the HashMap is
embedded as an association list where the newest binding shadows older ones. -/
abbrev ConcreteTypeIdMap := List ((GenericTypeId × List GenericArg) × ConcreteTypeId)

/-- FunctionMap (lib_func.rs, line 7). -/
abbrev FunctionMap := List (FunctionId × Function)

/-- HashMap.insert on the association-list embedding: the new binding shadows any older
binding for the same key. -/
def hashInsert (m : ConcreteTypeIdMap) (k : GenericTypeId × List GenericArg)
    (v : ConcreteTypeId) : ConcreteTypeIdMap :=
  (k, v) :: m

/-- HashMap.get on the association-list embedding: the newest binding wins. -/
def hashGet : ConcreteTypeIdMap → (GenericTypeId × List GenericArg) → Option ConcreteTypeId
  | [], _ => none
  | (k2, v) :: rest, k => if k2 = k then some v else hashGet rest k

/-- Context required for specialization process (lib_func.rs, lines 11-15). -/
structure SpecializationContext where
  functions : FunctionMap
  concrete_type_ids : ConcreteTypeIdMap

/-- Returns concrete type id or an error if missing (lib_func.rs, lines 17-27). -/
def SpecializationContext.get_concrete_type (ctx : SpecializationContext)
    (id : GenericTypeId) (args : List GenericArg) :
    Except SpecializationError ConcreteTypeId :=
  match hashGet ctx.concrete_type_ids (id, args) with
  | some c => .ok c
  | none => .error (.TypeWasNotDeclared id args)

/-- Returns the concrete id of a generic-type-id wrapping the type of a concrete-type-id
(lib_func.rs, lines 28-35). -/
def SpecializationContext.get_wrapped_concrete_type (ctx : SpecializationContext)
    (id : GenericTypeId) (wrapped : ConcreteTypeId) :
    Except SpecializationError ConcreteTypeId :=
  ctx.get_concrete_type id [GenericArg.Type wrapped]

/-- A context whose concrete-type map is built by a sequence of inserts into an initially
empty map, as the prior type-declaration phase does. -/
def buildContext (inserts : List ((GenericTypeId × List GenericArg) × ConcreteTypeId)) :
    SpecializationContext :=
  { functions := [],
    concrete_type_ids := inserts.foldl (fun m kv => hashInsert m kv.1 kv.2) [] }

/-- Trait GenericLibFunc (lib_func.rs, lines 38-50) as a structure of its methods, over
the generic-instance type G and the concrete type C. -/
structure GenericLibFuncData (G C : Type) where
  by_id : GenericLibFuncId → Option G
  specialize : G → SpecializationContext → List GenericArg → Except SpecializationError C

/-- GenericLibFuncEx.specialize_by_id (lib_func.rs, lines 60-77): resolve the family by
id, then specialize, wrapping either failure into an ExtensionError that carries the
libfunc id. -/
def GenericLibFuncData.specialize_by_id (L : GenericLibFuncData G C)
    (context : SpecializationContext) (libfunc_id : GenericLibFuncId)
    (args : List GenericArg) : Except ExtensionError C :=
  match L.by_id libfunc_id with
  | none => .error (.LibFuncSpecialization libfunc_id .UnsupportedId)
  | some g =>
    match L.specialize g context args with
    | .ok c => .ok c
    | .error error => .error (.LibFuncSpecialization libfunc_id error)

/-- Trait NamedLibFunc (lib_func.rs, lines 79-89): a family with one fixed id constant
and an argument-dependent specialize body. -/
structure NamedLibFuncData (C : Type) where
  ID : GenericLibFuncId
  specialize : SpecializationContext → List GenericArg → Except SpecializationError C

/-- The blanket GenericLibFunc implementation for a NamedLibFunc (lib_func.rs, lines
90-104): by_id matches the constant id and constructs the default instance. -/
def NamedLibFuncData.toGeneric (f : NamedLibFuncData C) : GenericLibFuncData Unit C where
  by_id := fun id => if f.ID = id then some () else none
  specialize := fun _ context args => f.specialize context args

/-- Trait NoGenericArgsGenericLibFunc (lib_func.rs, lines 106-114): a zero-argument
family supplies only a zero-argument specialize. -/
structure NoGenericArgsLibFuncData (C : Type) where
  ID : GenericLibFuncId
  specialize : SpecializationContext → Except SpecializationError C

/-- The blanket NamedLibFunc implementation for a NoGenericArgsGenericLibFunc
(lib_func.rs, lines 115-130): empty argument lists delegate, anything else fails with
WrongNumberOfGenericArgs. -/
def NoGenericArgsLibFuncData.toNamed (f : NoGenericArgsLibFuncData C) :
    NamedLibFuncData C where
  ID := f.ID
  specialize := fun context args =>
    if args.isEmpty then f.specialize context
    else .error .WrongNumberOfGenericArgs

/-- Trait ConcreteLibFunc (lib_func.rs, lines 132-140) as a record of its three
accessors. -/
structure ConcreteLibFuncData where
  input_types : List ConcreteTypeId
  output_types : List (List ConcreteTypeId)
  fallthrough : Option Nat
deriving DecidableEq

/-- Trait NonBranchConcreteLibFunc (lib_func.rs, lines 142-146): a flat output-type
list. -/
structure NonBranchConcreteLibFuncData where
  input_types : List ConcreteTypeId
  output_types : List ConcreteTypeId
deriving DecidableEq

/-- The blanket ConcreteLibFunc implementation for a NonBranchConcreteLibFunc
(lib_func.rs, lines 147-159): the flat output list becomes the single branch and the
fallthrough is branch 0. -/
def NonBranchConcreteLibFuncData.toConcrete (f : NonBranchConcreteLibFuncData) :
    ConcreteLibFuncData where
  input_types := f.input_types
  output_types := [f.output_types]
  fallthrough := some 0

/-- Helper for extracting the type from the template arguments (mem.rs, lines 22-28). -/
def as_single_type (args : List GenericArg) : Except SpecializationError ConcreteTypeId :=
  match args with
  | [GenericArg.Type ty] => .ok ty
  | _ => .error .UnsupportedGenericArg

/-- Modelled from the spec: the simulation helper single_cell_identity (extensions/core,
not under the provided sources; the source instantiates it as single_cell_identity at
count 1): identity pass-through of exactly one input variable's cells to exactly one
output variable; fails with InputError if the input is not exactly one variable. -/
def single_cell_identity (inputs : List (List MemCell)) :
    Except InputError (List (List MemCell)) :=
  match inputs with
  | [cells] => .ok [cells]
  | _ => .error .WrongNumberOfArgs

/-- Modelled from the spec: the simulation helper unpack_inputs at count n
(extensions/core, not under the provided sources): shape mismatches — a wrong variable
count where a family demands an exact count — are reported as InputError. -/
def unpack_inputs (n : Nat) (inputs : List (List MemCell)) :
    Except InputError (List (List MemCell)) :=
  if inputs.length = n then .ok inputs else .error .WrongNumberOfArgs

/-- Extension for storing a deferred value into temporary memory (mem.rs, lines
30-32). -/
structure StoreTempGeneric
deriving DecidableEq

/-- StoreTempConcrete (mem.rs, lines 41-43). -/
structure StoreTempConcrete where
  _ty : ConcreteTypeId
deriving DecidableEq

/-- NAME constant of StoreTempGeneric (mem.rs, line 35). -/
def StoreTempGeneric.NAME : GenericLibFuncId := "store_temp"

/-- StoreTempGeneric.specialize (mem.rs, lines 36-38). -/
def StoreTempGeneric.specialize (x : StoreTempGeneric) (args : List GenericArg) :
    Except SpecializationError StoreTempConcrete :=
  (as_single_type args).map fun ty => { _ty := ty }

/-- The derived by_id of a named family (the blanket implementation of lib_func.rs,
lines 93-95): match the constant id, construct the default instance. -/
def StoreTempGeneric.by_id (id : GenericLibFuncId) : Option StoreTempGeneric :=
  if StoreTempGeneric.NAME = id then some {} else none

/-- StoreTempConcrete.non_branch_simulate (mem.rs, lines 44-51). -/
def StoreTempConcrete.non_branch_simulate (x : StoreTempConcrete)
    (inputs : List (List MemCell)) : Except InputError (List (List MemCell)) :=
  single_cell_identity inputs

/-- Extension for aligning the temporary buffer for flow control merge (mem.rs, lines
53-55). -/
structure AlignTempsGeneric
deriving DecidableEq

/-- AlignTempsConcrete (mem.rs, lines 64-66). -/
structure AlignTempsConcrete where
  _ty : ConcreteTypeId
deriving DecidableEq

/-- NAME constant of AlignTempsGeneric (mem.rs, line 58). -/
def AlignTempsGeneric.NAME : GenericLibFuncId := "align_temps"

/-- AlignTempsGeneric.specialize (mem.rs, lines 59-61). -/
def AlignTempsGeneric.specialize (x : AlignTempsGeneric) (args : List GenericArg) :
    Except SpecializationError AlignTempsConcrete :=
  (as_single_type args).map fun ty => { _ty := ty }

/-- The derived by_id of the align_temps family (blanket implementation of lib_func.rs,
lines 93-95). -/
def AlignTempsGeneric.by_id (id : GenericLibFuncId) : Option AlignTempsGeneric :=
  if AlignTempsGeneric.NAME = id then some {} else none

/-- AlignTempsConcrete.non_branch_simulate (mem.rs, lines 67-75): unpack zero inputs,
produce zero outputs. -/
def AlignTempsConcrete.non_branch_simulate (x : AlignTempsConcrete)
    (inputs : List (List MemCell)) : Except InputError (List (List MemCell)) :=
  (unpack_inputs 0 inputs).map fun _ => []

/-- Extension for storing a deferred value into local memory (mem.rs, lines 77-79). -/
structure StoreLocalGeneric
deriving DecidableEq

/-- StoreLocalConcrete (mem.rs, lines 88-90). -/
structure StoreLocalConcrete where
  _ty : ConcreteTypeId
deriving DecidableEq

/-- NAME constant of StoreLocalGeneric (mem.rs, line 82). -/
def StoreLocalGeneric.NAME : GenericLibFuncId := "store_local"

/-- StoreLocalGeneric.specialize (mem.rs, lines 83-85). -/
def StoreLocalGeneric.specialize (x : StoreLocalGeneric) (args : List GenericArg) :
    Except SpecializationError StoreLocalConcrete :=
  (as_single_type args).map fun ty => { _ty := ty }

/-- The derived by_id of the store_local family (blanket implementation of lib_func.rs,
lines 93-95). -/
def StoreLocalGeneric.by_id (id : GenericLibFuncId) : Option StoreLocalGeneric :=
  if StoreLocalGeneric.NAME = id then some {} else none

/-- StoreLocalConcrete.non_branch_simulate (mem.rs, lines 91-98). -/
def StoreLocalConcrete.non_branch_simulate (x : StoreLocalConcrete)
    (inputs : List (List MemCell)) : Except InputError (List (List MemCell)) :=
  single_cell_identity inputs

/-- Extension for allocating locals for later stores (mem.rs, lines 100-102). -/
structure AllocLocalsGeneric
deriving DecidableEq

/-- AllocLocalsConcrete (mem.rs, line 111). -/
structure AllocLocalsConcrete
deriving DecidableEq

/-- NAME constant of AllocLocalsGeneric (mem.rs, line 105). -/
def AllocLocalsGeneric.NAME : GenericLibFuncId := "alloc_locals"

/-- The zero-argument specialize of the alloc_locals family (mem.rs, lines 106-108): it
always succeeds, producing AllocLocalsConcrete. -/
def AllocLocalsGeneric.specialize0 (x : AllocLocalsGeneric) : AllocLocalsConcrete := {}

/-- The derived argument-taking specialize of the zero-argument alloc_locals family (the
blanket implementation of lib_func.rs, lines 119-129): empty argument lists delegate,
anything else fails with WrongNumberOfGenericArgs. -/
def AllocLocalsGeneric.specialize (x : AllocLocalsGeneric) (args : List GenericArg) :
    Except SpecializationError AllocLocalsConcrete :=
  if args.isEmpty then .ok (AllocLocalsGeneric.specialize0 x)
  else .error .WrongNumberOfGenericArgs

/-- The derived by_id of the alloc_locals family (blanket implementation of lib_func.rs,
lines 93-95). -/
def AllocLocalsGeneric.by_id (id : GenericLibFuncId) : Option AllocLocalsGeneric :=
  if AllocLocalsGeneric.NAME = id then some {} else none

/-- AllocLocalsConcrete.non_branch_simulate (mem.rs, lines 112-120): unpack zero inputs,
produce zero outputs. -/
def AllocLocalsConcrete.non_branch_simulate (x : AllocLocalsConcrete)
    (inputs : List (List MemCell)) : Except InputError (List (List MemCell)) :=
  (unpack_inputs 0 inputs).map fun _ => []

/-- Extension for renaming an identifier - used to align identities for flow control
merge (mem.rs, lines 122-124). -/
structure RenameGeneric
deriving DecidableEq

/-- RenameConcrete (mem.rs, lines 133-135). -/
structure RenameConcrete where
  _ty : ConcreteTypeId
deriving DecidableEq

/-- NAME constant of RenameGeneric (mem.rs, line 127). -/
def RenameGeneric.NAME : GenericLibFuncId := "rename"

/-- RenameGeneric.specialize (mem.rs, lines 128-130). -/
def RenameGeneric.specialize (x : RenameGeneric) (args : List GenericArg) :
    Except SpecializationError RenameConcrete :=
  (as_single_type args).map fun ty => { _ty := ty }

/-- The derived by_id of the rename family (blanket implementation of lib_func.rs, lines
93-95). -/
def RenameGeneric.by_id (id : GenericLibFuncId) : Option RenameGeneric :=
  if RenameGeneric.NAME = id then some {} else none

/-- RenameConcrete.non_branch_simulate (mem.rs, lines 136-143). -/
def RenameConcrete.non_branch_simulate (x : RenameConcrete)
    (inputs : List (List MemCell)) : Except InputError (List (List MemCell)) :=
  single_cell_identity inputs

/-- Extension for making a type deferred for later store (mem.rs, lines 145-147). -/
structure MoveGeneric
deriving DecidableEq

/-- MoveConcrete (mem.rs, lines 156-158). -/
structure MoveConcrete where
  _ty : ConcreteTypeId
deriving DecidableEq

/-- NAME constant of MoveGeneric (mem.rs, line 150). -/
def MoveGeneric.NAME : GenericLibFuncId := "move"

/-- MoveGeneric.specialize (mem.rs, lines 151-153). -/
def MoveGeneric.specialize (x : MoveGeneric) (args : List GenericArg) :
    Except SpecializationError MoveConcrete :=
  (as_single_type args).map fun ty => { _ty := ty }

/-- The derived by_id of the move family (blanket implementation of lib_func.rs, lines
93-95). -/
def MoveGeneric.by_id (id : GenericLibFuncId) : Option MoveGeneric :=
  if MoveGeneric.NAME = id then some {} else none

/-- MoveConcrete.non_branch_simulate (mem.rs, lines 159-166). -/
def MoveConcrete.non_branch_simulate (x : MoveConcrete)
    (inputs : List (List MemCell)) : Except InputError (List (List MemCell)) :=
  single_cell_identity inputs

/-- The aggregate generic enum of the memory-management hierarchy: the expansion of the
hierarchy macro of lib_func.rs (lines 216-257) at the six families declared in mem.rs
(lines 11-20), in declared order. -/
inductive MemExtension where
  | StoreTemp (v : StoreTempGeneric)
  | AlignTemps (v : AlignTempsGeneric)
  | StoreLocal (v : StoreLocalGeneric)
  | AllocLocals (v : AllocLocalsGeneric)
  | Rename (v : RenameGeneric)
  | Move (v : MoveGeneric)
deriving DecidableEq

/-- The aggregate concrete enum of the memory-management hierarchy (the concrete-side
expansion of the macro of lib_func.rs, lines 174-202 and 251-255). -/
inductive MemConcrete where
  | StoreTemp (v : StoreTempConcrete)
  | AlignTemps (v : AlignTempsConcrete)
  | StoreLocal (v : StoreLocalConcrete)
  | AllocLocals (v : AllocLocalsConcrete)
  | Rename (v : RenameConcrete)
  | Move (v : MoveConcrete)
deriving DecidableEq

/-- The aggregate by_id (lib_func.rs, lines 227-234): try each member family in declared
order and return the first match, tagged into the aggregate enum. -/
def MemExtension.by_id (id : GenericLibFuncId) : Option MemExtension :=
  match StoreTempGeneric.by_id id with
  | some res => some (.StoreTemp res)
  | none =>
    match AlignTempsGeneric.by_id id with
    | some res => some (.AlignTemps res)
    | none =>
      match StoreLocalGeneric.by_id id with
      | some res => some (.StoreLocal res)
      | none =>
        match AllocLocalsGeneric.by_id id with
        | some res => some (.AllocLocals res)
        | none =>
          match RenameGeneric.by_id id with
          | some res => some (.Rename res)
          | none =>
            match MoveGeneric.by_id id with
            | some res => some (.Move res)
            | none => none

/-- The aggregate specialize (lib_func.rs, lines 235-248): dispatch to the active
variant's family and tag the inner concrete value into the aggregate concrete enum. The
mem.rs families take no context argument, so none is threaded here. -/
def MemExtension.specialize (x : MemExtension) (args : List GenericArg) :
    Except SpecializationError MemConcrete :=
  match x with
  | .StoreTemp v => (StoreTempGeneric.specialize v args).map MemConcrete.StoreTemp
  | .AlignTemps v => (AlignTempsGeneric.specialize v args).map MemConcrete.AlignTemps
  | .StoreLocal v => (StoreLocalGeneric.specialize v args).map MemConcrete.StoreLocal
  | .AllocLocals v => (AllocLocalsGeneric.specialize v args).map MemConcrete.AllocLocals
  | .Rename v => (RenameGeneric.specialize v args).map MemConcrete.Rename
  | .Move v => (MoveGeneric.specialize v args).map MemConcrete.Move

/-- The variant tag of an aggregate generic value, numbered in declared order. -/
def MemExtension.tag : MemExtension → Nat
  | .StoreTemp _ => 0
  | .AlignTemps _ => 1
  | .StoreLocal _ => 2
  | .AllocLocals _ => 3
  | .Rename _ => 4
  | .Move _ => 5

/-- The variant tag of an aggregate concrete value, numbered in declared order. -/
def MemConcrete.tag : MemConcrete → Nat
  | .StoreTemp _ => 0
  | .AlignTemps _ => 1
  | .StoreLocal _ => 2
  | .AllocLocals _ => 3
  | .Rename _ => 4
  | .Move _ => 5

/-- The ownership bitmap of an id over the six member families, in declared order:
family k owns id exactly when its by_id returns a match. -/
def memOwners (id : GenericLibFuncId) : List Bool :=
  [(StoreTempGeneric.by_id id).isSome,
   (AlignTempsGeneric.by_id id).isSome,
   (StoreLocalGeneric.by_id id).isSome,
   (AllocLocalsGeneric.by_id id).isSome,
   (RenameGeneric.by_id id).isSome,
   (MoveGeneric.by_id id).isSome]

/-- How many member families own an id. -/
def memOwnerCount (id : GenericLibFuncId) : Nat :=
  (memOwners id).count true

/-- The declared-order position of the first member family owning an id, if any. -/
def memFirstOwnerTag (id : GenericLibFuncId) : Option Nat :=
  (memOwners id).findIdx? (· = true)

/-- The alloc_locals family as an instance of the zero-argument refinement: its id
constant (mem.rs, line 105) and its always-succeeding zero-argument specialize (mem.rs,
lines 106-108), lifted over the context that the lib_func.rs trait threads through. -/
def allocLocalsNoArgs : NoGenericArgsLibFuncData AllocLocalsConcrete where
  ID := AllocLocalsGeneric.NAME
  specialize := fun context => .ok (AllocLocalsGeneric.specialize0 {})

/-- A specialization context with no declared functions or concrete types. -/
def emptyContext : SpecializationContext := { functions := [], concrete_type_ids := [] }

/-- The memory-management hierarchy packaged as a GenericLibFunc record; the mem.rs
families take no context, so the context is dropped at dispatch. -/
def memLibFunc : GenericLibFuncData MemExtension MemConcrete where
  by_id := MemExtension.by_id
  specialize := fun g context args => MemExtension.specialize g args

/-- Inversion for a mapped Except value that came out ok. -/
lemma except_map_ok {α β ε : Type} {f : α → β} {e : Except ε α} {c : β}
    (h : e.map f = .ok c) : ∃ a, e = .ok a ∧ c = f a := by
  cases e with
  | error err => simp [Except.map] at h
  | ok a => simp [Except.map] at h; exact ⟨a, rfl, h.symm⟩

/-- The aggregate specialize preserves the variant tag: a concrete value produced from a
generic variant carries the same declared-order tag. -/
lemma mem_specialize_tag (g : MemExtension) (args : List GenericArg) (c : MemConcrete)
    (h : MemExtension.specialize g args = .ok c) :
    MemConcrete.tag c = MemExtension.tag g := by
  cases g <;> simp only [MemExtension.specialize] at h <;>
    (obtain ⟨a, -, hc⟩ := except_map_ok h; subst hc; rfl)

/-- Folding hashInsert over an insert sequence reverses it onto the accumulator. -/
lemma foldl_hashInsert (l : List ((GenericTypeId × List GenericArg) × ConcreteTypeId))
    (acc : ConcreteTypeIdMap) :
    l.foldl (fun m kv => hashInsert m kv.1 kv.2) acc = l.reverse ++ acc := by
  induction l generalizing acc with
  | nil => simp
  | cons e t ih => simp [List.foldl, hashInsert, ih]

/-- The concrete-type map built from an insert sequence is that sequence reversed. -/
lemma buildContext_concrete_type_ids
    (inserts : List ((GenericTypeId × List GenericArg) × ConcreteTypeId)) :
    (buildContext inserts).concrete_type_ids = inserts.reverse := by
  simp [buildContext, foldl_hashInsert]

/-- Lookup misses when no entry carries the key. -/
lemma hashGet_eq_none {m : ConcreteTypeIdMap} {k : GenericTypeId × List GenericArg}
    (h : ∀ e ∈ m, e.1 ≠ k) : hashGet m k = none := by
  induction m with
  | nil => rfl
  | cons e t ih =>
    obtain ⟨k2, v⟩ := e
    rw [hashGet, if_neg (h (k2, v) (by simp))]
    exact ih fun e he => h e (by simp [he])

/-- Lookup finds the unique entry carrying the key when keys are duplicate-free. -/
lemma hashGet_mem {m : ConcreteTypeIdMap} {k : GenericTypeId × List GenericArg}
    {v : ConcreteTypeId} (hn : (m.map Prod.fst).Nodup) (hm : (k, v) ∈ m) :
    hashGet m k = some v := by
  induction m with
  | nil => cases hm
  | cons e t ih =>
    obtain ⟨k2, v2⟩ := e
    obtain ⟨hn1, hn2⟩ := List.nodup_cons.mp hn
    rcases List.mem_cons.mp hm with heq | ht
    · cases heq
      rw [hashGet, if_pos rfl]
    · have hk : k ∈ t.map Prod.fst := List.mem_map.mpr ⟨(k, v), ht, rfl⟩
      have hne : k2 ≠ k := fun he => hn1 (he ▸ hk)
      rw [hashGet, if_neg hne]
      exact ih hn2 ht

/-- Claim C1: for each of store_temp, store_local, rename and move, non_branch_simulate
on a list containing exactly one variable's cell sequence returns that same list
unchanged for any non-empty cell sequence, and on an empty input list or a list of two
or more cell sequences fails with InputError. -/
theorem identity_simulate_spec (s : StoreTempConcrete) (l : StoreLocalConcrete)
    (r : RenameConcrete) (m : MoveConcrete) (cells : List MemCell)
    (inputs : List (List MemCell)) :
    (cells ≠ [] →
      s.non_branch_simulate [cells] = .ok [cells]
      ∧ l.non_branch_simulate [cells] = .ok [cells]
      ∧ r.non_branch_simulate [cells] = .ok [cells]
      ∧ m.non_branch_simulate [cells] = .ok [cells])
    ∧ (s.non_branch_simulate [] = .error .WrongNumberOfArgs
      ∧ l.non_branch_simulate [] = .error .WrongNumberOfArgs
      ∧ r.non_branch_simulate [] = .error .WrongNumberOfArgs
      ∧ m.non_branch_simulate [] = .error .WrongNumberOfArgs)
    ∧ (2 ≤ inputs.length →
      s.non_branch_simulate inputs = .error .WrongNumberOfArgs
      ∧ l.non_branch_simulate inputs = .error .WrongNumberOfArgs
      ∧ r.non_branch_simulate inputs = .error .WrongNumberOfArgs
      ∧ m.non_branch_simulate inputs = .error .WrongNumberOfArgs) := by
  refine ⟨fun h => ⟨rfl, rfl, rfl, rfl⟩, ⟨rfl, rfl, rfl, rfl⟩, fun h => ?_⟩
  match inputs with
  | [] => simp at h
  | [x] => simp at h
  | x :: y :: rest => exact ⟨rfl, rfl, rfl, rfl⟩

/-- Witness for claim C1 at a one-cell input and a two-variable input. -/
theorem identity_simulate_witness :
    StoreTempConcrete.non_branch_simulate { _ty := "felt" } [[{ value := 5 }]]
      = .ok [[{ value := 5 }]]
    ∧ MoveConcrete.non_branch_simulate { _ty := "felt" } [[], []]
      = .error .WrongNumberOfArgs :=
  ⟨((identity_simulate_spec { _ty := "felt" } { _ty := "felt" } { _ty := "felt" }
      { _ty := "felt" } [{ value := 5 }] [[], []]).1 (by decide)).1,
   ((identity_simulate_spec { _ty := "felt" } { _ty := "felt" } { _ty := "felt" }
      { _ty := "felt" } [{ value := 5 }] [[], []]).2.2 (by decide)).2.2.2⟩

/-- Claim C2: for the composed memory-management hierarchy, by_id returns a match
exactly when exactly one member family owns the id, the match is the first owning family
in declared order, and any concrete value produced by specialize carries the variant tag
of that owning family. -/
theorem mem_hierarchy_by_id_spec (id : GenericLibFuncId) :
    ((MemExtension.by_id id).isSome ↔ memOwnerCount id = 1)
    ∧ (∀ g, MemExtension.by_id id = some g → memFirstOwnerTag id = some g.tag)
    ∧ (∀ g args c, MemExtension.by_id id = some g →
      MemExtension.specialize g args = .ok c →
      MemConcrete.tag c = MemExtension.tag g) := by
  suffices h : ((MemExtension.by_id id).isSome ↔ memOwnerCount id = 1)
      ∧ (∀ g, MemExtension.by_id id = some g → memFirstOwnerTag id = some g.tag) by
    exact ⟨h.1, h.2, fun g args c hg hs => mem_specialize_tag g args c hs⟩
  by_cases h1 : StoreTempGeneric.NAME = id
  · subst h1
    refine ⟨by decide, fun g hg => ?_⟩
    rw [show MemExtension.by_id StoreTempGeneric.NAME
      = some (.StoreTemp {}) from rfl] at hg
    injection hg with hg
    subst hg
    decide
  · by_cases h2 : AlignTempsGeneric.NAME = id
    · subst h2
      refine ⟨by decide, fun g hg => ?_⟩
      rw [show MemExtension.by_id AlignTempsGeneric.NAME
        = some (.AlignTemps {}) from rfl] at hg
      injection hg with hg
      subst hg
      decide
    · by_cases h3 : StoreLocalGeneric.NAME = id
      · subst h3
        refine ⟨by decide, fun g hg => ?_⟩
        rw [show MemExtension.by_id StoreLocalGeneric.NAME
          = some (.StoreLocal {}) from rfl] at hg
        injection hg with hg
        subst hg
        decide
      · by_cases h4 : AllocLocalsGeneric.NAME = id
        · subst h4
          refine ⟨by decide, fun g hg => ?_⟩
          rw [show MemExtension.by_id AllocLocalsGeneric.NAME
            = some (.AllocLocals {}) from rfl] at hg
          injection hg with hg
          subst hg
          decide
        · by_cases h5 : RenameGeneric.NAME = id
          · subst h5
            refine ⟨by decide, fun g hg => ?_⟩
            rw [show MemExtension.by_id RenameGeneric.NAME
              = some (.Rename {}) from rfl] at hg
            injection hg with hg
            subst hg
            decide
          · by_cases h6 : MoveGeneric.NAME = id
            · subst h6
              refine ⟨by decide, fun g hg => ?_⟩
              rw [show MemExtension.by_id MoveGeneric.NAME
                = some (.Move {}) from rfl] at hg
              injection hg with hg
              subst hg
              decide
            · have hnone : MemExtension.by_id id = none := by
                simp [MemExtension.by_id, StoreTempGeneric.by_id, AlignTempsGeneric.by_id,
                  StoreLocalGeneric.by_id, AllocLocalsGeneric.by_id, RenameGeneric.by_id,
                  MoveGeneric.by_id, h1, h2, h3, h4, h5, h6]
              have hcnt : memOwnerCount id = 0 := by
                simp [memOwnerCount, memOwners, StoreTempGeneric.by_id,
                  AlignTempsGeneric.by_id, StoreLocalGeneric.by_id,
                  AllocLocalsGeneric.by_id, RenameGeneric.by_id, MoveGeneric.by_id,
                  h1, h2, h3, h4, h5, h6]
              refine ⟨by simp [hnone, hcnt], fun g hg => ?_⟩
              rw [hnone] at hg
              cases hg

/-- Witness for claim C2 at the id "rename": the match exists, is the declared-order
first owner, and its specialization carries the Rename tag. -/
theorem mem_hierarchy_by_id_witness :
    ((MemExtension.by_id "rename").isSome ↔ memOwnerCount "rename" = 1)
    ∧ memFirstOwnerTag "rename" = some (MemExtension.tag (MemExtension.Rename {}))
    ∧ MemConcrete.tag (MemConcrete.Rename { _ty := "felt" })
      = MemExtension.tag (MemExtension.Rename {}) :=
  ⟨(mem_hierarchy_by_id_spec "rename").1,
   (mem_hierarchy_by_id_spec "rename").2.1 (.Rename {}) rfl,
   (mem_hierarchy_by_id_spec "rename").2.2 (.Rename {}) [GenericArg.Type "felt"]
     (.Rename { _ty := "felt" }) rfl rfl⟩

/-- Claim C3: for every zero-argument family, the derived specialize fails with
WrongNumberOfGenericArgs on every non-empty generic-argument list and delegates to the
zero-argument specialize on the empty list. -/
theorem no_generic_args_specialize_spec {C : Type} (f : NoGenericArgsLibFuncData C)
    (context : SpecializationContext) :
    (∀ args : List GenericArg, args ≠ [] →
      f.toNamed.specialize context args = .error .WrongNumberOfGenericArgs)
    ∧ f.toNamed.specialize context [] = f.specialize context := by
  refine ⟨fun args h => ?_, rfl⟩
  match args with
  | [] => exact absurd rfl h
  | x :: rest => rfl

/-- Witness for claim C3 at the alloc_locals family. -/
theorem no_generic_args_specialize_witness :
    allocLocalsNoArgs.toNamed.specialize emptyContext [GenericArg.Type "felt"]
      = .error .WrongNumberOfGenericArgs
    ∧ allocLocalsNoArgs.toNamed.specialize emptyContext []
      = allocLocalsNoArgs.specialize emptyContext :=
  ⟨(no_generic_args_specialize_spec allocLocalsNoArgs emptyContext).1
      [GenericArg.Type "felt"] (by decide),
   (no_generic_args_specialize_spec allocLocalsNoArgs emptyContext).2⟩

/-- Claim C4: for every single-type family (store_temp, store_local, rename, move),
specialize fails with UnsupportedGenericArg on an empty argument list and on two type
arguments, and succeeds on exactly one Type argument with the concrete instance's
recorded type equal to it. -/
theorem single_type_specialize_spec (a b : ConcreteTypeId) :
    (StoreTempGeneric.specialize {} [] = .error .UnsupportedGenericArg
      ∧ StoreTempGeneric.specialize {} [GenericArg.Type a, GenericArg.Type b]
        = .error .UnsupportedGenericArg
      ∧ StoreTempGeneric.specialize {} [GenericArg.Type a] = .ok { _ty := a })
    ∧ (StoreLocalGeneric.specialize {} [] = .error .UnsupportedGenericArg
      ∧ StoreLocalGeneric.specialize {} [GenericArg.Type a, GenericArg.Type b]
        = .error .UnsupportedGenericArg
      ∧ StoreLocalGeneric.specialize {} [GenericArg.Type a] = .ok { _ty := a })
    ∧ (RenameGeneric.specialize {} [] = .error .UnsupportedGenericArg
      ∧ RenameGeneric.specialize {} [GenericArg.Type a, GenericArg.Type b]
        = .error .UnsupportedGenericArg
      ∧ RenameGeneric.specialize {} [GenericArg.Type a] = .ok { _ty := a })
    ∧ (MoveGeneric.specialize {} [] = .error .UnsupportedGenericArg
      ∧ MoveGeneric.specialize {} [GenericArg.Type a, GenericArg.Type b]
        = .error .UnsupportedGenericArg
      ∧ MoveGeneric.specialize {} [GenericArg.Type a] = .ok { _ty := a }) :=
  ⟨⟨rfl, rfl, rfl⟩, ⟨rfl, rfl, rfl⟩, ⟨rfl, rfl, rfl⟩, ⟨rfl, rfl, rfl⟩⟩

/-- Claim C5: for align_temps and alloc_locals, non_branch_simulate maps the empty input
list to the empty output list and fails with InputError on any non-empty input list. -/
theorem noop_simulate_spec (c : AlignTempsConcrete) (d : AllocLocalsConcrete)
    (inputs : List (List MemCell)) :
    (c.non_branch_simulate [] = .ok [] ∧ d.non_branch_simulate [] = .ok [])
    ∧ (inputs ≠ [] →
      c.non_branch_simulate inputs = .error .WrongNumberOfArgs
      ∧ d.non_branch_simulate inputs = .error .WrongNumberOfArgs) := by
  refine ⟨⟨rfl, rfl⟩, fun h => ?_⟩
  match inputs with
  | [] => exact absurd rfl h
  | x :: rest => exact ⟨rfl, rfl⟩

/-- Witness for claim C5 at a one-variable input and the empty input. -/
theorem noop_simulate_witness :
    AlignTempsConcrete.non_branch_simulate { _ty := "felt" } [[{ value := 5 }]]
      = .error .WrongNumberOfArgs
    ∧ AllocLocalsConcrete.non_branch_simulate {} [] = .ok [] :=
  ⟨((noop_simulate_spec { _ty := "felt" } {} [[{ value := 5 }]]).2 (by decide)).1,
   (noop_simulate_spec { _ty := "felt" } {} [[{ value := 5 }]]).1.2⟩

/-- Claim C6: every concrete libfunc derived through the non-branch refinement reports
output_types as a list containing exactly one type group and fallthrough equal to
Some(0). -/
theorem non_branch_concrete_spec (f : NonBranchConcreteLibFuncData) :
    f.toConcrete.output_types = [f.output_types]
    ∧ f.toConcrete.output_types.length = 1
    ∧ f.toConcrete.fallthrough = some 0 :=
  ⟨rfl, rfl, rfl⟩

/-- Claim C7: over an arbitrary insert sequence, get_concrete_type returns the
registered concrete-type id for every inserted key and fails with TypeWasNotDeclared
carrying the id and arguments for every key never inserted. -/
theorem get_concrete_type_spec
    (inserts : List ((GenericTypeId × List GenericArg) × ConcreteTypeId))
    (id : GenericTypeId) (args : List GenericArg) :
    ((∀ e ∈ inserts, e.1 ≠ (id, args)) →
      (buildContext inserts).get_concrete_type id args
        = .error (.TypeWasNotDeclared id args))
    ∧ (∀ v, (inserts.map Prod.fst).Nodup → ((id, args), v) ∈ inserts →
      (buildContext inserts).get_concrete_type id args = .ok v) := by
  constructor
  · intro h
    unfold SpecializationContext.get_concrete_type
    rw [buildContext_concrete_type_ids,
      hashGet_eq_none fun e he => h e (List.mem_reverse.mp he)]
  · intro v hn hm
    unfold SpecializationContext.get_concrete_type
    rw [buildContext_concrete_type_ids,
      hashGet_mem (by rw [List.map_reverse]; exact List.nodup_reverse.mpr hn)
        (List.mem_reverse.mpr hm)]

/-- Witness for claim C7 at a one-insert sequence: the inserted key is found, an absent
key reports TypeWasNotDeclared. -/
theorem get_concrete_type_witness :
    (buildContext [(("Box", [GenericArg.Type "felt"]), "BoxFelt")]).get_concrete_type
      "Box" [GenericArg.Type "felt"] = .ok "BoxFelt"
    ∧ (buildContext [(("Box", [GenericArg.Type "felt"]), "BoxFelt")]).get_concrete_type
      "Array" [] = .error (.TypeWasNotDeclared "Array" []) :=
  ⟨(get_concrete_type_spec [(("Box", [GenericArg.Type "felt"]), "BoxFelt")]
      "Box" [GenericArg.Type "felt"]).2 "BoxFelt" (by decide) (by decide),
   (get_concrete_type_spec [(("Box", [GenericArg.Type "felt"]), "BoxFelt")]
      "Array" []).1 (by decide)⟩

/-- Claim C8: specialize_by_id wraps an unclaimed id into an ExtensionError carrying
UnsupportedId and the requested libfunc id, and wraps a failing family specialization
into an ExtensionError carrying that same SpecializationError and the libfunc id. -/
theorem specialize_by_id_spec {G C : Type} (L : GenericLibFuncData G C)
    (context : SpecializationContext) (libfunc_id : GenericLibFuncId)
    (args : List GenericArg) :
    (L.by_id libfunc_id = none →
      L.specialize_by_id context libfunc_id args
        = .error (.LibFuncSpecialization libfunc_id .UnsupportedId))
    ∧ (∀ g error, L.by_id libfunc_id = some g →
      L.specialize g context args = .error error →
      L.specialize_by_id context libfunc_id args
        = .error (.LibFuncSpecialization libfunc_id error)) := by
  constructor
  · intro h
    simp [GenericLibFuncData.specialize_by_id, h]
  · intro g error hg hs
    simp [GenericLibFuncData.specialize_by_id, hg, hs]

/-- Witness for claim C8 over the memory-management hierarchy: an unclaimed id and a
claimed id whose specialization fails. -/
theorem specialize_by_id_witness :
    memLibFunc.specialize_by_id emptyContext "undeclared" []
      = .error (.LibFuncSpecialization "undeclared" .UnsupportedId)
    ∧ memLibFunc.specialize_by_id emptyContext "store_temp" []
      = .error (.LibFuncSpecialization "store_temp" .UnsupportedGenericArg) :=
  ⟨(specialize_by_id_spec memLibFunc emptyContext "undeclared" []).1 rfl,
   (specialize_by_id_spec memLibFunc emptyContext "store_temp" []).2 (.StoreTemp {})
     .UnsupportedGenericArg rfl rfl⟩

/-- Claim C9: get_wrapped_concrete_type agrees with get_concrete_type applied to the
single-Type argument list, for every context, generic type id and wrapped concrete type
id. -/
theorem get_wrapped_concrete_type_spec (ctx : SpecializationContext)
    (id : GenericTypeId) (w : ConcreteTypeId) :
    ctx.get_wrapped_concrete_type id w = ctx.get_concrete_type id [GenericArg.Type w] :=
  rfl

/-- Claim C10: the align_temps family demands exactly one Type generic argument:
specialize fails with UnsupportedGenericArg on the empty list, a literal-value argument
and any list of two or more arguments, and succeeds on exactly one Type argument —
unlike the zero-argument alloc_locals family, whose derived specialize rejects that same
argument list with WrongNumberOfGenericArgs. -/
theorem align_temps_specialize_spec (a : ConcreteTypeId) (v : Int) :
    AlignTempsGeneric.specialize {} [] = .error .UnsupportedGenericArg
    ∧ AlignTempsGeneric.specialize {} [GenericArg.Value v]
      = .error .UnsupportedGenericArg
    ∧ (∀ args : List GenericArg, 2 ≤ args.length →
      AlignTempsGeneric.specialize {} args = .error .UnsupportedGenericArg)
    ∧ AlignTempsGeneric.specialize {} [GenericArg.Type a] = .ok { _ty := a }
    ∧ AllocLocalsGeneric.specialize {} [GenericArg.Type a]
      = .error .WrongNumberOfGenericArgs := by
  refine ⟨rfl, rfl, fun args h => ?_, rfl, rfl⟩
  match args with
  | [] => simp at h
  | [x] => simp at h
  | x :: y :: rest => cases x <;> rfl

/-- Witness for claim C10 at a two-element argument list. -/
theorem align_temps_specialize_witness :
    AlignTempsGeneric.specialize {} [GenericArg.Type "felt", GenericArg.Value 3]
      = .error .UnsupportedGenericArg :=
  (align_temps_specialize_spec "felt" 3).2.2.1
    [GenericArg.Type "felt", GenericArg.Value 3] (by decide)

end Sierra
